import Mathlib

/-!
Verification of the pressboi press-report analysis engine
(`definition/reports/press_report.py`).

The development shallowly embeds the core of `PressReportGenerator`:
CSV row parsing (`parse_csv_log`), metric and verdict calculation
(`calculate_metrics`), the chart clip window and the telemetry-endpoint
override reconciliation (`generate_report`).  Python floats are modelled
as rationals (`ℚ`), Python `None` as `Option.none`, and a raised
conversion exception as an aborted row step.
-/

namespace PressReport

/-! ### Row-level parsing (`parse_csv_log`, lines 124-181)

A CSV cell, as seen by the row loop: `missing` models an absent key or a
falsy (empty) string, `bad` a non-empty string on which `float()` raises
`ValueError`, and `val q` a string that converts to the float `q`.
-/

inductive Cell where
  | missing
  | bad
  | val (q : ℚ)
deriving DecidableEq

/-- One data row, restricted to the four converted fields.  The date/time
columns only feed `start_time`/`end_time` inside a nested `try` that
swallows its own errors and never touches the numeric arrays, so they are
not modelled. -/
structure Row where
  time : Cell
  pos : Cell
  force : Cell
  energy : Cell
deriving DecidableEq

/-- The four accumulating arrays of the parser. -/
structure RowState where
  times : List ℚ
  positions : List ℚ
  forces : List ℚ
  energies : List ℚ
deriving DecidableEq

/-- Models `times.append(float(row[time_col]))`, with the synthesized
`len(times) * 0.02` fallback when there is no time column or the cell is
falsy; `none` models the `ValueError` aborting the row. -/
def stepTime (hasTimeCol : Bool) (s : RowState) (c : Cell) : Option RowState :=
  if hasTimeCol then
    match c with
    | Cell.bad => none
    | Cell.val q => some { s with times := s.times ++ [q] }
    | Cell.missing => some { s with times := s.times ++ [(s.times.length : ℚ) * (2/100)] }
  else some { s with times := s.times ++ [(s.times.length : ℚ) * (2/100)] }

/-- Models `pos_val = row.get(pos_col, '0'); if pos_val:
positions.append(float(pos_val))`: a falsy cell appends nothing, a bad
cell raises. -/
def stepPos (s : RowState) (c : Cell) : Option RowState :=
  match c with
  | Cell.bad => none
  | Cell.val q => some { s with positions := s.positions ++ [q] }
  | Cell.missing => some s

/-- Same shape as `stepPos`, for the force column. -/
def stepForce (s : RowState) (c : Cell) : Option RowState :=
  match c with
  | Cell.bad => none
  | Cell.val q => some { s with forces := s.forces ++ [q] }
  | Cell.missing => some s

/-- Models `if energy_col: ... if energy_val:
energies.append(float(energy_val))`. -/
def stepEnergy (hasEnergyCol : Bool) (s : RowState) (c : Cell) : Option RowState :=
  if hasEnergyCol then
    match c with
    | Cell.bad => none
    | Cell.val q => some { s with energies := s.energies ++ [q] }
    | Cell.missing => some s
  else some s

/-- One iteration of the `for row in reader` loop.  A `ValueError` in any
conversion jumps to the `except` handler, which `continue`s with the
state as it stands at that point: appends already performed for earlier
fields of the row are kept. -/
def processRow (hasTimeCol hasEnergyCol : Bool) (s : RowState) (r : Row) : RowState :=
  match stepTime hasTimeCol s r.time with
  | none => s
  | some s1 =>
    match stepPos s1 r.pos with
    | none => s1
    | some s2 =>
      match stepForce s2 r.force with
      | none => s2
      | some s3 =>
        match stepEnergy hasEnergyCol s3 r.energy with
        | none => s3
        | some s4 => s4

/-- The whole row loop. -/
def parseRows (hasTimeCol hasEnergyCol : Bool) (rows : List Row) : RowState :=
  rows.foldl (processRow hasTimeCol hasEnergyCol) ⟨[], [], [], []⟩

/-- Lines 164-170: truncate the three primary arrays to their shared
minimum length, and the energies (when non-empty) to at most that
length. -/
def truncateLog (s : RowState) : RowState :=
  let min_len := min s.times.length (min s.positions.length s.forces.length)
  { times := s.times.take min_len
    positions := s.positions.take min_len
    forces := s.forces.take min_len
    energies := if s.energies = [] then s.energies
                else s.energies.take (min s.energies.length min_len) }

/-- The whole of `parse_csv_log` restricted to the numeric arrays: run
the row loop, then truncate. -/
def parseLog (hasTimeCol hasEnergyCol : Bool) (rows : List Row) : RowState :=
  truncateLog (parseRows hasTimeCol hasEnergyCol rows)

/-! ### Column detection (`parse_csv_log`, lines 99-115)

Python's `in` substring test and `str.lower` are modelled over `List
Char`; `String.toLower`/`splitOn` are avoided because they do not reduce
in the kernel.
-/

/-- Whether `p` is a prefix of `s` (Bool-valued, structural). -/
def isPrefCh : List Char → List Char → Bool
  | [], _ => true
  | _ :: _, [] => false
  | p :: ps, c :: cs => p == c && isPrefCh ps cs

/-- Substring containment, modelling Python's `pat in s`. -/
def containsCh (s pat : List Char) : Bool :=
  if isPrefCh pat s then true
  else
    match s with
    | [] => false
    | _ :: t => containsCh t pat

/-- Models `header.lower()` as a character list. -/
def lowerCh (s : String) : List Char := s.toList.map Char.toLower

/-- The column-detection accumulator: the five column variables and
`detected_force_mode`. -/
structure Cols where
  pos_col : Option String
  force_col : Option String
  energy_col : Option String
  time_col : Option String
  date_col : Option String
  detected_force_mode : Option String
deriving DecidableEq

/-- The body of the `for header in headers` loop (lines 100-115): a
single `elif` chain evaluated on the lowercased header. -/
def detectStep (c : Cols) (header : String) : Cols :=
  let hl := lowerCh header
  if containsCh hl "current_pos".toList || containsCh hl "position".toList then
    { c with pos_col := some header }
  else if containsCh hl "force_load_cell".toList then
    { c with force_col := some header, detected_force_mode := some "Load Cell" }
  else if containsCh hl "force_motor_torque".toList && c.force_col.isNone then
    { c with force_col := some header, detected_force_mode := some "Motor Torque" }
  else if containsCh hl "joules".toList || containsCh hl "energy".toList then
    { c with energy_col := some header }
  else if hl == "elapsed_s".toList || containsCh hl "elapsed".toList then
    { c with time_col := some header }
  else if hl == "date".toList then
    { c with date_col := some header }
  else c

/-- Column detection over the whole header row, in file order. -/
def detectColumns (headers : List String) : Cols :=
  headers.foldl detectStep ⟨none, none, none, none, none, none⟩

/-! ### Metric calculation (`calculate_metrics`, lines 183-335) -/

/-- Python `abs`, written with an explicit conditional so that it reduces. -/
def pyAbs (q : ℚ) : ℚ := if q < 0 then -q else q

/-- Binary maximum with an explicit conditional (equal to `max`). -/
def max2 (a b : ℚ) : ℚ := if a < b then b else a

/-- Python `max(l)` for a non-empty list (`0` on `[]`, which the source
never reaches: every use is guarded by a non-emptiness test). -/
def pyMax : List ℚ → ℚ
  | [] => 0
  | x :: xs => xs.foldl max2 x

/-- Python `l.index(v)`: index of the first occurrence of `v`. -/
def pyIndex (l : List ℚ) (v : ℚ) : Nat := l.findIdx (fun y => decide (y = v))

/-- Lines 234-239: the fallback energy integration over consecutive
sample pairs, `((force[i]+force[i-1])/2 * 9.81) * (|Δposition|/1000)`,
walking the two arrays in lockstep (they have equal length for every
parsed log). -/
def fallbackEnergy : List ℚ → List ℚ → ℚ
  | p0 :: p1 :: ps, f0 :: f1 :: fs =>
      (f1 + f0) / 2 * (981/100) * (pyAbs (p1 - p0) / 1000)
      + fallbackEnergy (p1 :: ps) (f1 :: fs)
  | _, _ => 0

/-- The per-criterion pass/fail computation (lines 245-267, and repeated
verbatim for the override at lines 459-465): `none` when both bounds are
absent, otherwise `true` flipped to `false` by a violated present
bound. -/
def critPass (value : ℚ) (vmin vmax : Option ℚ) : Option Bool :=
  if vmin.isSome ∨ vmax.isSome then
    let p := true
    let p := match vmin with
      | some lo => if value < lo then false else p
      | none => p
    let p := match vmax with
      | some hi => if value > hi then false else p
      | none => p
    some p
  else none

/-- Lines 273-279: the `checks` list filtered to the defined verdicts. -/
def definedChecks (fp ep gp : Option Bool) : List (Bool × String) :=
  ([(fp, "force"), (ep, "endpoint"), (gp, "energy")]).filterMap
    (fun c => c.1.map (fun b => (b, c.2)))

/-- Lines 270-288: the overall verdict and reason. -/
def aggregateVerdicts (fp ep gp : Option Bool) : Option Bool × String :=
  let dc := definedChecks fp ep gp
  if dc = [] then (none, "No thresholds defined")
  else
    let failed := (dc.filter (fun c => !c.1)).map Prod.snd
    if failed = [] then (some true, "All thresholds met")
    else (some false, "Failed: " ++ String.intercalate ", " failed)

/-- The metric dictionary returned on non-empty data (lines 318-335).
`duration_str` is a display formatting of `duration` and is not
modelled. -/
structure Metrics where
  peak_force : ℚ
  peak_force_position : ℚ
  peak_force_pass : Option Bool
  start_position : ℚ
  endpoint : ℚ
  endpoint_pass : Option Bool
  energy : ℚ
  energy_pass : Option Bool
  energy_percent : ℚ
  energy_min_percent : ℚ
  energy_max_percent : ℚ
  duration : ℚ
  data_points : Nat
  overall_pass : Option Bool
  pass_fail_reason : String
deriving DecidableEq

/-- The non-empty branch of `calculate_metrics` (lines 221-335). -/
def calcMetricsCore (data : RowState)
    (force_min force_max endpoint_min endpoint_max energy_min energy_max : Option ℚ) :
    Metrics :=
  let positions := data.positions
  let forces := data.forces
  let energies := data.energies
  let times := data.times
  let peak_force := pyMax forces
  let peak_idx := pyIndex forces peak_force
  let peak_force_position := positions.getD peak_idx 0
  let start_position := positions.headD 0
  let endpoint := positions.getLastD 0
  let energy := if energies ≠ [] then energies.getLastD 0
                else fallbackEnergy positions forces
  let duration := if times ≠ [] then times.getLastD 0 - times.headD 0 else 0
  let peak_force_pass := critPass peak_force force_min force_max
  let endpoint_pass := critPass endpoint endpoint_min endpoint_max
  let energy_pass := critPass energy energy_min energy_max
  let agg := aggregateVerdicts peak_force_pass endpoint_pass energy_pass
  -- Energy gauge scaling, lines 290-316 (the `elif energy > 0` arm only
  -- re-assigns the default 50 and is a no-op).
  let gauge : ℚ × ℚ × ℚ :=
    match energy_min, energy_max with
    | some gmin, some gmax =>
      let threshold_range := gmax - gmin
      let padding := threshold_range * (1/2)
      let energy_scale_min := max2 0 (gmin - padding)
      let energy_scale_max := max2 energy (gmax + padding)
      let scale_range := energy_scale_max - energy_scale_min
      if scale_range > 0 then
        (((energy - energy_scale_min) / scale_range) * 100,
         ((gmin - energy_scale_min) / scale_range) * 100,
         ((gmax - energy_scale_min) / scale_range) * 100)
      else (50, 0, 100)
    | none, some gmax =>
      if gmax > 0 then
        let energy_scale_max := max2 energy gmax * (12/10)
        ((energy / energy_scale_max) * 100, 0, (gmax / energy_scale_max) * 100)
      else (50, 0, 100)
    | _, none => (50, 0, 100)
  { peak_force := peak_force
    peak_force_position := peak_force_position
    peak_force_pass := peak_force_pass
    start_position := start_position
    endpoint := endpoint
    endpoint_pass := endpoint_pass
    energy := energy
    energy_pass := energy_pass
    energy_percent := gauge.1
    energy_min_percent := gauge.2.1
    energy_max_percent := gauge.2.2
    duration := duration
    data_points := positions.length
    overall_pass := agg.1
    pass_fail_reason := agg.2 }

/-- The full `calculate_metrics`: on empty positions or forces the source
early-returns a reduced all-zero dictionary carrying no verdict keys
(lines 210-219), modelled as `none`. -/
def calculateMetrics (data : RowState)
    (force_min force_max endpoint_min endpoint_max energy_min energy_max : Option ℚ) :
    Option Metrics :=
  if data.positions = [] ∨ data.forces = [] then none
  else some (calcMetricsCore data force_min force_max endpoint_min endpoint_max
              energy_min energy_max)

/-! ### Chart clip window (`generate_report`, lines 403-425) -/

/-- The indices computed for the chart clip. -/
structure ChartWindow where
  peak_idx : Nat
  endpoint_idx : Nat
  start_idx : Nat
  end_idx : Nat
deriving DecidableEq

/-- Lines 403-420: peak index, farthest-position index, startpoint
index (first position at or past `press_startpoint`, left at 0 when
absent, non-positive or never reached) and the exclusive clip end. -/
def chartWindow (positions forces : List ℚ) (press_startpoint : Option ℚ) : ChartWindow :=
  let peak_force := if forces ≠ [] then pyMax forces else 0
  let peak_idx := if forces ≠ [] then pyIndex forces peak_force else 0
  let max_position := if positions ≠ [] then pyMax positions else 0
  let endpoint_idx := if positions ≠ [] then pyIndex positions max_position else 0
  let start_idx :=
    match press_startpoint with
    | some sp =>
      if sp > 0 then
        match positions.findIdx? (fun p => decide (sp ≤ p)) with
        | some i => i
        | none => 0
      else 0
    | none => 0
  let end_idx := max (endpoint_idx + 1) (start_idx + 1)
  ⟨peak_idx, endpoint_idx, start_idx, end_idx⟩

/-- Python slice `l[a:b]`. -/
def pySlice (l : List ℚ) (a b : Nat) : List ℚ := (l.take b).drop a

/-! ### Report-context assembly (`generate_report`, lines 456-535) -/

/-- The metric-derived slice of the template context (lines 502-515). -/
structure MetricsContext where
  peak_force : ℚ
  peak_force_pass : Option Bool
  start_position : ℚ
  endpoint : ℚ
  endpoint_pass : Option Bool
  energy : ℚ
  energy_pass : Option Bool
  energy_percent : ℚ
  energy_min_percent : ℚ
  energy_max_percent : ℚ
  overall_pass : Option Bool
  pass_fail_reason : String
  data_points : Nat
deriving DecidableEq

/-- Lines 456-486 followed by the metric fields of the context dict:
substitute the telemetry endpoint when supplied, recompute its verdict,
and re-aggregate the overall verdict (success string "All checks
passed") only when the endpoint verdict changed. -/
def assembleMetricsContext (m : Metrics)
    (endpoint_min endpoint_max telemetry_endpoint : Option ℚ) : MetricsContext :=
  let final_endpoint :=
    match telemetry_endpoint with
    | some t => t
    | none => m.endpoint
  let final_endpoint_pass := critPass final_endpoint endpoint_min endpoint_max
  let verdict : Option Bool × String :=
    if final_endpoint_pass ≠ none ∧ final_endpoint_pass ≠ m.endpoint_pass then
      let dc := definedChecks m.peak_force_pass final_endpoint_pass m.energy_pass
      if dc ≠ [] then
        let failed := (dc.filter (fun c => !c.1)).map Prod.snd
        if failed ≠ [] then (some false, "Failed: " ++ String.intercalate ", " failed)
        else (some true, "All checks passed")
      else (m.overall_pass, m.pass_fail_reason)
    else (m.overall_pass, m.pass_fail_reason)
  { peak_force := m.peak_force
    peak_force_pass := m.peak_force_pass
    start_position := m.start_position
    endpoint := final_endpoint
    endpoint_pass := final_endpoint_pass
    energy := m.energy
    energy_pass := m.energy_pass
    energy_percent := m.energy_percent
    energy_min_percent := m.energy_min_percent
    energy_max_percent := m.energy_max_percent
    overall_pass := verdict.1
    pass_fail_reason := verdict.2
    data_points := m.data_points }

/-- The names of the failing criteria in the fixed order force,
endpoint, energy, as the specification words the overall reason. -/
def failedNames (fp ep gp : Option Bool) : List String :=
  (if fp = some false then ["force"] else [])
    ++ (if ep = some false then ["endpoint"] else [])
    ++ (if gp = some false then ["energy"] else [])

/-! ### Helper lemmas -/

theorem critPass_eq_none_iff (v : ℚ) (lo hi : Option ℚ) :
    critPass v lo hi = none ↔ lo = none ∧ hi = none := by
  cases lo <;> cases hi <;> simp [critPass]

theorem critPass_eq_false_iff (v : ℚ) (lo hi : Option ℚ) :
    critPass v lo hi = some false ↔
      ¬(lo = none ∧ hi = none) ∧
      ((∃ a, lo = some a ∧ v < a) ∨ (∃ b, hi = some b ∧ v > b)) := by
  cases lo <;> cases hi <;> simp [critPass]
  rename_i a b
  rcases le_or_lt v b with h | h
  · simp [h, not_lt.mpr h]
  · simp [h, not_le.mpr h]

theorem aggregateVerdicts_eq : ∀ (fp ep gp : Option Bool),
    aggregateVerdicts fp ep gp =
      (if fp = none ∧ ep = none ∧ gp = none then (none, "No thresholds defined")
       else if failedNames fp ep gp = [] then (some true, "All thresholds met")
       else (some false, "Failed: " ++ String.intercalate ", " (failedNames fp ep gp))) := by
  decide

theorem calculateMetrics_some {d : RowState} {a b c e f g : Option ℚ} {m : Metrics}
    (hm : calculateMetrics d a b c e f g = some m) :
    m = calcMetricsCore d a b c e f g ∧ d.positions ≠ [] ∧ d.forces ≠ [] := by
  unfold calculateMetrics at hm
  split at hm
  · exact absurd hm (by simp)
  · rename_i h
    push_neg at h
    exact ⟨(Option.some.injEq _ _ ▸ hm).symm, h.1, h.2⟩

theorem core_peak_force_pass (d : RowState) (a b c e f g : Option ℚ) :
    (calcMetricsCore d a b c e f g).peak_force_pass =
      critPass (calcMetricsCore d a b c e f g).peak_force a b := rfl

theorem core_endpoint_pass (d : RowState) (a b c e f g : Option ℚ) :
    (calcMetricsCore d a b c e f g).endpoint_pass =
      critPass (calcMetricsCore d a b c e f g).endpoint c e := rfl

theorem core_energy_pass (d : RowState) (a b c e f g : Option ℚ) :
    (calcMetricsCore d a b c e f g).energy_pass =
      critPass (calcMetricsCore d a b c e f g).energy f g := rfl

theorem core_overall (d : RowState) (a b c e f g : Option ℚ) :
    ((calcMetricsCore d a b c e f g).overall_pass,
     (calcMetricsCore d a b c e f g).pass_fail_reason) =
      aggregateVerdicts (calcMetricsCore d a b c e f g).peak_force_pass
        (calcMetricsCore d a b c e f g).endpoint_pass
        (calcMetricsCore d a b c e f g).energy_pass := rfl

theorem core_peak_force (d : RowState) (a b c e f g : Option ℚ) :
    (calcMetricsCore d a b c e f g).peak_force = pyMax d.forces := rfl

theorem core_peak_force_position (d : RowState) (a b c e f g : Option ℚ) :
    (calcMetricsCore d a b c e f g).peak_force_position =
      d.positions.getD (pyIndex d.forces (pyMax d.forces)) 0 := rfl

theorem core_endpoint (d : RowState) (a b c e f g : Option ℚ) :
    (calcMetricsCore d a b c e f g).endpoint = d.positions.getLastD 0 := rfl

theorem core_energy (d : RowState) (a b c e f g : Option ℚ) :
    (calcMetricsCore d a b c e f g).energy =
      (if d.energies ≠ [] then d.energies.getLastD 0
       else fallbackEnergy d.positions d.forces) := rfl

theorem le_max2_left (a b : ℚ) : a ≤ max2 a b := by
  unfold max2; split_ifs with h
  · exact h.le
  · exact le_rfl

theorem le_max2_right (a b : ℚ) : b ≤ max2 a b := by
  unfold max2; split_ifs with h
  · exact le_rfl
  · exact not_lt.mp h

theorem foldl_max2_le_init : ∀ (xs : List ℚ) (x : ℚ), x ≤ xs.foldl max2 x
  | [], _ => le_rfl
  | y :: ys, x =>
    le_trans (le_max2_left x y) (foldl_max2_le_init ys (max2 x y))

theorem mem_le_foldl_max2 : ∀ (xs : List ℚ) (x y : ℚ), y ∈ xs → y ≤ xs.foldl max2 x
  | y' :: ys, x, y, h => by
    rcases List.mem_cons.mp h with rfl | h'
    · exact le_trans (le_max2_right x y) (foldl_max2_le_init ys _)
    · exact mem_le_foldl_max2 ys _ y h'

theorem foldl_max2_mem : ∀ (xs : List ℚ) (x : ℚ), xs.foldl max2 x = x ∨ xs.foldl max2 x ∈ xs
  | [], _ => Or.inl rfl
  | y :: ys, x => by
    rcases foldl_max2_mem ys (max2 x y) with h | h
    · by_cases hxy : x < y
      · right
        rw [List.foldl_cons, h]
        simp [max2, hxy]
      · left
        rw [List.foldl_cons, h]
        simp [max2, hxy]
    · right
      exact List.mem_cons_of_mem _ h

theorem pyMax_mem {l : List ℚ} (h : l ≠ []) : pyMax l ∈ l := by
  cases l with
  | nil => exact absurd rfl h
  | cons x xs =>
    rcases foldl_max2_mem xs x with h' | h'
    · rw [pyMax, h']; exact List.mem_cons_self x xs
    · exact List.mem_cons_of_mem _ (by rw [pyMax]; exact h')

theorem le_pyMax {l : List ℚ} {y : ℚ} (hy : y ∈ l) : y ≤ pyMax l := by
  cases l with
  | nil => simp at hy
  | cons x xs =>
    rcases List.mem_cons.mp hy with rfl | h'
    · exact foldl_max2_le_init xs y
    · exact mem_le_foldl_max2 xs x y h'

theorem getD_eq_getElem {l : List ℚ} {i : Nat} (h : i < l.length) : l.getD i 0 = l[i] := by
  simp [List.getD_eq_getElem?_getD, List.getElem?_eq_getElem h]

theorem pyIndex_lt {l : List ℚ} {v : ℚ} (h : v ∈ l) : pyIndex l v < l.length :=
  List.findIdx_lt_length.mpr ⟨v, h, by simp⟩

theorem pyIndex_getD {l : List ℚ} {v : ℚ} (h : v ∈ l) : l.getD (pyIndex l v) 0 = v := by
  have hlt := pyIndex_lt h
  rw [getD_eq_getElem hlt]
  have := @List.findIdx_getElem ℚ (fun y => decide (y = v)) l hlt
  simpa [pyIndex] using this

theorem pyIndex_first {l : List ℚ} {v : ℚ} {j : Nat} (hj : j < pyIndex l v) :
    l.getD j 0 ≠ v := by
  have hjl : j < l.length := lt_of_lt_of_le hj (List.findIdx_le_length _)
  rw [getD_eq_getElem hjl]
  have := List.not_of_lt_findIdx (p := fun y => decide (y = v)) hj
  simpa using this

theorem pySlice_head {l : List ℚ} {a b : Nat} (hab : a < b) (ha : a < l.length) :
    (pySlice l a b).head? = some (l.getD a 0) := by
  rw [pySlice, List.head?_eq_getElem?, List.getElem?_drop, List.getElem?_take]
  simp [hab, List.getElem?_eq_getElem ha, getD_eq_getElem ha]

/-! ### Claim theorems -/

/-- C1: for every parsed log and threshold configuration, the overall
verdict ignores undefined per-criterion verdicts; with no defined
verdict it is undefined with reason "No thresholds defined", with a
failing defined verdict it is false with reason "Failed: " plus the
comma-joined failing names in the fixed order force, endpoint, energy,
and otherwise it is true with reason "All thresholds met". -/
theorem overall_verdict_aggregation (d : RowState)
    (fmin fmax emin emax gmin gmax : Option ℚ) (m : Metrics)
    (hm : calculateMetrics d fmin fmax emin emax gmin gmax = some m) :
    (m.peak_force_pass = none ∧ m.endpoint_pass = none ∧ m.energy_pass = none →
       m.overall_pass = none ∧ m.pass_fail_reason = "No thresholds defined") ∧
    (failedNames m.peak_force_pass m.endpoint_pass m.energy_pass ≠ [] →
       m.overall_pass = some false ∧
       m.pass_fail_reason =
         "Failed: " ++ String.intercalate ", "
           (failedNames m.peak_force_pass m.endpoint_pass m.energy_pass)) ∧
    (¬(m.peak_force_pass = none ∧ m.endpoint_pass = none ∧ m.energy_pass = none) →
       failedNames m.peak_force_pass m.endpoint_pass m.energy_pass = [] →
       m.overall_pass = some true ∧ m.pass_fail_reason = "All thresholds met") := by
  obtain ⟨rfl, hp, hf⟩ := calculateMetrics_some hm
  have hova := core_overall d fmin fmax emin emax gmin gmax
  rw [aggregateVerdicts_eq] at hova
  refine ⟨?_, ?_, ?_⟩
  · intro h
    rw [if_pos h, Prod.mk.injEq] at hova
    exact hova
  · intro h
    have hnall : ¬((calcMetricsCore d fmin fmax emin emax gmin gmax).peak_force_pass = none ∧
        (calcMetricsCore d fmin fmax emin emax gmin gmax).endpoint_pass = none ∧
        (calcMetricsCore d fmin fmax emin emax gmin gmax).energy_pass = none) := by
      rintro ⟨h1, h2, h3⟩
      exact h (by simp [failedNames, h1, h2, h3])
    rw [if_neg hnall, if_neg h, Prod.mk.injEq] at hova
    exact hova
  · intro h1 h2
    rw [if_neg h1, if_pos h2, Prod.mk.injEq] at hova
    exact hova

/-- Concrete log for the C1 witness: force threshold met, no endpoint
bounds, energy threshold failed. -/
def dC1 : RowState := ⟨[0, 2], [0, 10], [50, 100], [5]⟩

/-- The metrics of `dC1` under `force_min=10, energy_min=100`. -/
def mC1 : Metrics := calcMetricsCore dC1 (some 10) none none none (some 100) none

/-- Witness for C1 at `dC1`: energy fails, so overall is false with
reason "Failed: energy". -/
theorem overall_verdict_aggregation_witness :
    calculateMetrics dC1 (some 10) none none none (some 100) none = some mC1 ∧
    failedNames mC1.peak_force_pass mC1.endpoint_pass mC1.energy_pass ≠ [] ∧
    mC1.overall_pass = some false ∧ mC1.pass_fail_reason = "Failed: energy" := by
  refine ⟨rfl, by decide, ?_, ?_⟩
  · exact ((overall_verdict_aggregation dC1 (some 10) none none none (some 100) none
      mC1 rfl).2.1 (by decide)).1
  · have h := ((overall_verdict_aggregation dC1 (some 10) none none none (some 100) none
      mC1 rfl).2.1 (by decide)).2
    rw [h]
    decide

/-- C2: each of the three per-criterion verdicts, evaluated
independently, is undefined exactly when both of its bounds are absent,
and false exactly when some present min bound is strictly violated or
some present max bound is strictly violated (equality with a bound
passes). -/
theorem per_criterion_verdicts (d : RowState)
    (fmin fmax emin emax gmin gmax : Option ℚ) (m : Metrics)
    (hm : calculateMetrics d fmin fmax emin emax gmin gmax = some m) :
    ((m.peak_force_pass = none ↔ fmin = none ∧ fmax = none) ∧
     (m.peak_force_pass = some false ↔
        ¬(fmin = none ∧ fmax = none) ∧
        ((∃ a, fmin = some a ∧ m.peak_force < a) ∨
         (∃ b, fmax = some b ∧ m.peak_force > b)))) ∧
    ((m.endpoint_pass = none ↔ emin = none ∧ emax = none) ∧
     (m.endpoint_pass = some false ↔
        ¬(emin = none ∧ emax = none) ∧
        ((∃ a, emin = some a ∧ m.endpoint < a) ∨
         (∃ b, emax = some b ∧ m.endpoint > b)))) ∧
    ((m.energy_pass = none ↔ gmin = none ∧ gmax = none) ∧
     (m.energy_pass = some false ↔
        ¬(gmin = none ∧ gmax = none) ∧
        ((∃ a, gmin = some a ∧ m.energy < a) ∨
         (∃ b, gmax = some b ∧ m.energy > b)))) := by
  obtain ⟨rfl, hp, hf⟩ := calculateMetrics_some hm
  refine ⟨⟨?_, ?_⟩, ⟨?_, ?_⟩, ⟨?_, ?_⟩⟩
  · rw [core_peak_force_pass]; exact critPass_eq_none_iff _ _ _
  · rw [core_peak_force_pass]; exact critPass_eq_false_iff _ _ _
  · rw [core_endpoint_pass]; exact critPass_eq_none_iff _ _ _
  · rw [core_endpoint_pass]; exact critPass_eq_false_iff _ _ _
  · rw [core_energy_pass]; exact critPass_eq_none_iff _ _ _
  · rw [core_energy_pass]; exact critPass_eq_false_iff _ _ _

/-- Concrete log for the C2 witness: peak force exactly on both bounds. -/
def dC2 : RowState := ⟨[0, 1], [0, 5], [100, 100], []⟩

/-- The metrics of `dC2` under `force_min=100, force_max=100`. -/
def mC2 : Metrics := calcMetricsCore dC2 (some 100) (some 100) none none none none

/-- Witness for C2 at `dC2`: with `force_min=force_max=100` and peak
force exactly 100, the force verdict is neither undefined nor false. -/
theorem per_criterion_verdicts_witness :
    calculateMetrics dC2 (some 100) (some 100) none none none none = some mC2 ∧
    mC2.peak_force = 100 ∧
    mC2.peak_force_pass ≠ some false ∧ mC2.peak_force_pass ≠ none ∧
    mC2.peak_force_pass = some true := by
  have h := (per_criterion_verdicts dC2 (some 100) (some 100) none none none none
      mC2 rfl).1
  refine ⟨rfl, by decide, ?_, ?_, by decide⟩
  · intro hfalse
    rcases (h.2.mp hfalse).2 with ⟨a, ha, hlt⟩ | ⟨b, hb, hgt⟩
    · have hpf : mC2.peak_force = 100 := by decide
      rw [Option.some.injEq] at ha
      rw [hpf, ← ha] at hlt
      exact absurd hlt (by norm_num)
    · have hpf : mC2.peak_force = 100 := by decide
      rw [Option.some.injEq] at hb
      rw [hpf, ← hb] at hgt
      exact absurd hgt (by norm_num)
  · intro hnone
    rcases h.1.mp hnone with ⟨h1, h2⟩
    exact Option.some_ne_none _ h1

/-- C5: the energy metric is the last logged energy sample when any
exist, and the fallback pairwise integration otherwise. -/
theorem energy_metric (d : RowState)
    (fmin fmax emin emax gmin gmax : Option ℚ) (m : Metrics)
    (hm : calculateMetrics d fmin fmax emin emax gmin gmax = some m) :
    (d.energies ≠ [] → m.energy = d.energies.getLastD 0) ∧
    (d.energies = [] → m.energy = fallbackEnergy d.positions d.forces) := by
  obtain ⟨rfl, hp, hf⟩ := calculateMetrics_some hm
  rw [core_energy]
  constructor <;> intro h <;> simp [h]

/-- Concrete log for the C5 witness: two samples, positions 0 and 10 mm,
constant force 100 kg, no logged energy. -/
def dC5 : RowState := ⟨[0, 1], [0, 10], [100, 100], []⟩

/-- The metrics of `dC5` with no thresholds. -/
def mC5 : Metrics := calcMetricsCore dC5 none none none none none none

/-- Witness for C5 at `dC5`: the fallback integration yields exactly
9.81 J, within the specification's 1e-6 tolerance. -/
theorem energy_metric_witness :
    calculateMetrics dC5 none none none none none none = some mC5 ∧
    dC5.energies = [] ∧
    mC5.energy = fallbackEnergy dC5.positions dC5.forces ∧
    pyAbs (mC5.energy - 981/100) ≤ 1/1000000 := by
  have h := (energy_metric dC5 none none none none none none mC5 rfl).2 rfl
  refine ⟨rfl, rfl, h, ?_⟩
  rw [h]
  show pyAbs (fallbackEnergy [0, 10] [100, 100] - 981/100) ≤ 1/1000000
  norm_num [fallbackEnergy, pyAbs]

/-- C7: the peak force is the maximum of the force sequence and its
reported position is the position at the first index attaining that
maximum (earliest on ties). -/
theorem peak_force_first_idx (d : RowState)
    (fmin fmax emin emax gmin gmax : Option ℚ) (m : Metrics)
    (hm : calculateMetrics d fmin fmax emin emax gmin gmax = some m)
    (hlen : d.positions.length = d.forces.length) :
    (∀ f ∈ d.forces, f ≤ m.peak_force) ∧ m.peak_force ∈ d.forces ∧
    ∃ i, i < d.forces.length ∧ d.forces.getD i 0 = m.peak_force ∧
      (∀ j < i, d.forces.getD j 0 ≠ m.peak_force) ∧
      m.peak_force_position = d.positions.getD i 0 := by
  obtain ⟨rfl, hp, hf⟩ := calculateMetrics_some hm
  rw [core_peak_force, core_peak_force_position]
  have hmem := pyMax_mem hf
  refine ⟨fun f hfm => le_pyMax hfm, hmem, pyIndex d.forces (pyMax d.forces), ?_, ?_, ?_, rfl⟩
  · exact pyIndex_lt hmem
  · exact pyIndex_getD hmem
  · intro j hj
    exact pyIndex_first hj

/-- Concrete log for the C7 witness: the global maximum force 5 is
attained at indices 1 and 2; the earlier position is 20. -/
def dC7 : RowState := ⟨[0, 1, 2], [10, 20, 30], [1, 5, 5], []⟩

/-- The metrics of `dC7` with no thresholds. -/
def mC7 : Metrics := calcMetricsCore dC7 none none none none none none

/-- Witness for C7 at `dC7`: peak force 5, tie broken to the earlier
sample at position 20. -/
theorem peak_force_first_idx_witness :
    (calculateMetrics dC7 none none none none none none = some mC7 ∧
     dC7.positions.length = dC7.forces.length) ∧
    mC7.peak_force = 5 ∧ mC7.peak_force_position = 20 ∧
    (∃ i, i < dC7.forces.length ∧ dC7.forces.getD i 0 = mC7.peak_force ∧
      (∀ j < i, dC7.forces.getD j 0 ≠ mC7.peak_force) ∧
      mC7.peak_force_position = dC7.positions.getD i 0) := by
  obtain ⟨h1, h2, h3⟩ := peak_force_first_idx dC7 none none none none none none
    mC7 rfl (by decide)
  exact ⟨⟨rfl, by decide⟩, by decide, by decide, h3⟩

/-- Length invariant of the truncation step, for any accumulator
state. -/
theorem truncate_invariant (s : RowState) :
    (truncateLog s).times.length = (truncateLog s).positions.length ∧
    (truncateLog s).positions.length = (truncateLog s).forces.length ∧
    (truncateLog s).energies.length ≤ (truncateLog s).positions.length := by
  by_cases he : s.energies = [] <;>
    simp [truncateLog, he, List.length_take] <;> omega

/-- C9: every successfully parsed log satisfies
`len(times) = len(positions) = len(forces)` and
`len(energies) ≤ len(positions)`. -/
theorem parse_length_invariant (hasTimeCol hasEnergyCol : Bool) (rows : List Row) :
    (parseLog hasTimeCol hasEnergyCol rows).times.length =
      (parseLog hasTimeCol hasEnergyCol rows).positions.length ∧
    (parseLog hasTimeCol hasEnergyCol rows).positions.length =
      (parseLog hasTimeCol hasEnergyCol rows).forces.length ∧
    (parseLog hasTimeCol hasEnergyCol rows).energies.length ≤
      (parseLog hasTimeCol hasEnergyCol rows).positions.length :=
  truncate_invariant (parseRows hasTimeCol hasEnergyCol rows)

/-- A row whose force cell fails float conversion after time and
position were already appended. -/
def rowBadForce : Row := ⟨Cell.missing, Cell.val 1, Cell.bad, Cell.missing⟩

/-- A fully valid row. -/
def rowGood : Row := ⟨Cell.missing, Cell.val 2, Cell.val 5, Cell.missing⟩

/-- C3 counterexample: the first row fails its force conversion, yet its
position value 1 stays in the positions array (before truncation the
arrays are [1, 2] and [5]).  After truncation the surviving sample pairs
the failed row's position 1 with the second row's force 5 — had the
failed row been skipped wholesale, the parsed positions would be [2]. -/
theorem row_skip_counterexample :
    (parseRows false false [rowBadForce, rowGood]).positions = [1, 2] ∧
    (parseRows false false [rowBadForce, rowGood]).forces = [5] ∧
    (parseLog false false [rowBadForce, rowGood]).positions = [1] ∧
    (parseLog false false [rowBadForce, rowGood]).forces = [5] := by
  refine ⟨by decide, by decide, by decide, by decide⟩

/-- C3 amended: each data row appends at most one entry to each
per-column array, extending it in place (entries appended for fields
converted before a failure remain, so inclusion is per-field rather than
all-or-nothing), and parsing always continues with the next row. -/
theorem processRow_appends (hasTimeCol hasEnergyCol : Bool) (s : RowState) (r : Row) :
    ((processRow hasTimeCol hasEnergyCol s r).times.take s.times.length = s.times ∧
     (processRow hasTimeCol hasEnergyCol s r).times.length ≤ s.times.length + 1) ∧
    ((processRow hasTimeCol hasEnergyCol s r).positions.take s.positions.length = s.positions ∧
     (processRow hasTimeCol hasEnergyCol s r).positions.length ≤ s.positions.length + 1) ∧
    ((processRow hasTimeCol hasEnergyCol s r).forces.take s.forces.length = s.forces ∧
     (processRow hasTimeCol hasEnergyCol s r).forces.length ≤ s.forces.length + 1) ∧
    ((processRow hasTimeCol hasEnergyCol s r).energies.take s.energies.length = s.energies ∧
     (processRow hasTimeCol hasEnergyCol s r).energies.length ≤ s.energies.length + 1) := by
  cases r with
  | mk t p f e =>
    cases hasTimeCol <;> cases hasEnergyCol <;> cases t <;> cases p <;> cases f <;> cases e <;>
      simp [processRow, stepTime, stepPos, stepForce, stepEnergy,
            List.take_left, List.take_length, Nat.le_succ]

/-- The header list of the C4 counterexample: two motor-torque headers,
no load-cell header. -/
def mtHeaders : List String := ["force_motor_torque_a", "force_motor_torque_b"]

/-- C4 counterexample: with two motor-torque headers and no load-cell
column claimed anywhere, the claim predicts the LATER header claims the
force column (no load-cell column has been claimed, and last-match-wins
per rule); the code keeps the FIRST, because the guard is `force_col is
None`, not `no load-cell column`. -/
theorem motor_torque_counterexample :
    (detectColumns mtHeaders).force_col = some "force_motor_torque_a" ∧
    (detectColumns mtHeaders).force_col ≠ some "force_motor_torque_b" := by
  refine ⟨by decide, by decide⟩

/-- C4 amended: for every detection rule other than the motor-torque
rule — position, load-cell, energy, time, date — a later header matching
that rule (and no earlier rule of the chain) overwrites the earlier
claim, while a motor-torque match claims the force column if and only if
no force column of either kind has been claimed yet: a later motor-torque
match never overwrites, so for that rule alone the first match wins. -/
theorem detect_rule_overwrites (c : Cols) (hd : String) :
    ((containsCh (lowerCh hd) "current_pos".toList = true ∨
      containsCh (lowerCh hd) "position".toList = true) →
       (detectStep c hd).pos_col = some hd) ∧
    (containsCh (lowerCh hd) "current_pos".toList = false →
     containsCh (lowerCh hd) "position".toList = false →
     containsCh (lowerCh hd) "force_load_cell".toList = true →
       (detectStep c hd).force_col = some hd) ∧
    (containsCh (lowerCh hd) "current_pos".toList = false →
     containsCh (lowerCh hd) "position".toList = false →
     containsCh (lowerCh hd) "force_load_cell".toList = false →
     containsCh (lowerCh hd) "force_motor_torque".toList = true →
       (detectStep c hd).force_col =
         (if c.force_col = none then some hd else c.force_col)) ∧
    (containsCh (lowerCh hd) "current_pos".toList = false →
     containsCh (lowerCh hd) "position".toList = false →
     containsCh (lowerCh hd) "force_load_cell".toList = false →
     containsCh (lowerCh hd) "force_motor_torque".toList = false →
     (containsCh (lowerCh hd) "joules".toList = true ∨
      containsCh (lowerCh hd) "energy".toList = true) →
       (detectStep c hd).energy_col = some hd) ∧
    (containsCh (lowerCh hd) "current_pos".toList = false →
     containsCh (lowerCh hd) "position".toList = false →
     containsCh (lowerCh hd) "force_load_cell".toList = false →
     containsCh (lowerCh hd) "force_motor_torque".toList = false →
     containsCh (lowerCh hd) "joules".toList = false →
     containsCh (lowerCh hd) "energy".toList = false →
     ((lowerCh hd == "elapsed_s".toList) = true ∨
      containsCh (lowerCh hd) "elapsed".toList = true) →
       (detectStep c hd).time_col = some hd) ∧
    (containsCh (lowerCh hd) "current_pos".toList = false →
     containsCh (lowerCh hd) "position".toList = false →
     containsCh (lowerCh hd) "force_load_cell".toList = false →
     containsCh (lowerCh hd) "force_motor_torque".toList = false →
     containsCh (lowerCh hd) "joules".toList = false →
     containsCh (lowerCh hd) "energy".toList = false →
     (lowerCh hd == "elapsed_s".toList) = false →
     containsCh (lowerCh hd) "elapsed".toList = false →
     (lowerCh hd == "date".toList) = true →
       (detectStep c hd).date_col = some hd) := by
  refine ⟨?_, ?_, ?_, ?_, ?_, ?_⟩
  · intro h
    rcases h with h | h <;>
      (simp only [detectStep]; simp only [h]; simp)
  · intro h1 h2 hlc
    simp only [detectStep]
    simp only [h1, h2, hlc]
    simp
  · intro h1 h2 hlc hmt
    simp only [detectStep]
    simp only [h1, h2, hlc, hmt]
    by_cases hf : c.force_col = none
    · simp [hf]
    · simp [hf]
      split_ifs <;> rfl
  · intro h1 h2 hlc hmt h
    rcases h with h | h <;>
      (simp only [detectStep]; simp only [h1, h2, hlc, hmt, h]; simp)
  · intro h1 h2 hlc hmt hj hg h
    rcases h with h | h <;>
      (simp only [detectStep]; simp only [h1, h2, hlc, hmt, hj, hg, h]; simp)
  · intro h1 h2 hlc hmt hj hg he1 he2 hdate
    simp only [detectStep]
    simp only [h1, h2, hlc, hmt, hj, hg, he1, he2, hdate]
    simp

/-- A detection state in which every column has already been claimed by
an earlier header. -/
def colsFull : Cols :=
  ⟨some "pos0", some "force_load_cell_0", some "energy0", some "elapsed0",
   some "date", some "Load Cell"⟩

/-- Witness for the amended C4 at a fully claimed state: later headers
matching the position, load-cell, energy, time and date rules each
overwrite the earlier claim, while a later motor-torque header leaves the
already-claimed force column untouched. -/
theorem detect_rule_overwrites_witness :
    (detectStep colsFull "position_2").pos_col = some "position_2" ∧
    (detectStep colsFull "force_load_cell_2").force_col = some "force_load_cell_2" ∧
    (detectStep colsFull "force_motor_torque").force_col =
      (if colsFull.force_col = none then some "force_motor_torque"
       else colsFull.force_col) ∧
    (detectStep colsFull "force_motor_torque").force_col = some "force_load_cell_0" ∧
    (detectStep colsFull "energy_2").energy_col = some "energy_2" ∧
    (detectStep colsFull "elapsed_2").time_col = some "elapsed_2" ∧
    (detectStep colsFull "date").date_col = some "date" := by
  refine ⟨?_, ?_, ?_, by decide, ?_, ?_, ?_⟩
  · exact (detect_rule_overwrites colsFull "position_2").1 (Or.inr (by decide))
  · exact (detect_rule_overwrites colsFull "force_load_cell_2").2.1
      (by decide) (by decide) (by decide)
  · exact (detect_rule_overwrites colsFull "force_motor_torque").2.2.1
      (by decide) (by decide) (by decide) (by decide)
  · exact (detect_rule_overwrites colsFull "energy_2").2.2.2.1
      (by decide) (by decide) (by decide) (by decide) (Or.inr (by decide))
  · exact (detect_rule_overwrites colsFull "elapsed_2").2.2.2.2.1
      (by decide) (by decide) (by decide) (by decide) (by decide) (by decide)
      (Or.inr (by decide))
  · exact (detect_rule_overwrites colsFull "date").2.2.2.2.2
      (by decide) (by decide) (by decide) (by decide) (by decide) (by decide)
      (by decide) (by decide) (by decide)

theorem chartWindow_endpoint_idx {positions : List ℚ} (forces : List ℚ) (sp? : Option ℚ)
    (hpos : positions ≠ []) :
    (chartWindow positions forces sp?).endpoint_idx = pyIndex positions (pyMax positions) := by
  simp [chartWindow, hpos]

theorem chartWindow_start_idx (positions forces : List ℚ) (sp? : Option ℚ) :
    (chartWindow positions forces sp?).start_idx =
      (match sp? with
       | some sp =>
         if sp > 0 then
           (match positions.findIdx? (fun p => decide (sp ≤ p)) with
            | some i => i
            | none => 0)
         else 0
       | none => 0) := rfl

theorem chartWindow_end_idx (positions forces : List ℚ) (sp? : Option ℚ) :
    (chartWindow positions forces sp?).end_idx =
      max ((chartWindow positions forces sp?).endpoint_idx + 1)
          ((chartWindow positions forces sp?).start_idx + 1) := rfl

theorem chartWindow_start_idx_lt {positions : List ℚ} (forces : List ℚ) (sp? : Option ℚ)
    (hpos : positions ≠ []) :
    (chartWindow positions forces sp?).start_idx < positions.length := by
  rw [chartWindow_start_idx]
  have h0 : 0 < positions.length := List.length_pos.mpr hpos
  cases sp? with
  | none => simpa using h0
  | some sp =>
    by_cases hsp : sp > 0
    · simp only [if_pos hsp]
      cases hidx : positions.findIdx? (fun p => decide (sp ≤ p)) with
      | none => simpa using h0
      | some i =>
        have hi := List.findIdx?_eq_some_iff_findIdx_eq.mp hidx
        simpa using hi.1
    · simpa [hsp] using h0

/-- C8: the endpoint index is the first index attaining the global
maximum position; the start index is the first index whose position
reaches a positive supplied startpoint (0 when the startpoint is absent
or non-positive); and the clip range
`[start_idx, max(endpoint_idx+1, start_idx+1))` is never empty — it
contains at least the sample at `start_idx`. -/
theorem chart_window_spec (positions forces : List ℚ) (sp? : Option ℚ) (w : ChartWindow)
    (hw : w = chartWindow positions forces sp?) (hpos : positions ≠ []) :
    (w.endpoint_idx < positions.length ∧
     (∀ x ∈ positions, x ≤ positions.getD w.endpoint_idx 0) ∧
     (∀ j < w.endpoint_idx, positions.getD j 0 ≠ positions.getD w.endpoint_idx 0)) ∧
    ((∀ sp, sp? = some sp → 0 < sp →
        ∀ i, i < positions.length → sp ≤ positions.getD i 0 →
          sp ≤ positions.getD w.start_idx 0 ∧
          ∀ j < w.start_idx, positions.getD j 0 < sp) ∧
     (sp? = none ∨ (∃ sp, sp? = some sp ∧ ¬0 < sp) → w.start_idx = 0)) ∧
    (w.end_idx = max (w.endpoint_idx + 1) (w.start_idx + 1) ∧
     w.start_idx < w.end_idx ∧ w.start_idx < positions.length ∧
     (pySlice positions w.start_idx w.end_idx).head? =
       some (positions.getD w.start_idx 0)) := by
  subst hw
  have hmem := pyMax_mem hpos
  refine ⟨?_, ⟨?_, ?_⟩, ?_, ?_, chartWindow_start_idx_lt forces sp? hpos, ?_⟩
  · rw [chartWindow_endpoint_idx forces sp? hpos]
    have hgd := pyIndex_getD hmem
    exact ⟨pyIndex_lt hmem, by rw [hgd]; exact fun x hx => le_pyMax hx,
           fun j hj => by rw [hgd]; exact pyIndex_first hj⟩
  · rintro sp rfl hsp i hi hge
    rw [getD_eq_getElem hi] at hge
    have hex : ∃ x ∈ positions, (fun p => decide (sp ≤ p)) x = true :=
      ⟨positions[i], List.getElem_mem hi, by simpa using hge⟩
    have hsome := List.findIdx?_eq_some_of_exists hex
    have hs : (chartWindow positions forces (some sp)).start_idx =
        positions.findIdx (fun p => decide (sp ≤ p)) := by
      rw [chartWindow_start_idx]
      simp [hsp, hsome]
    rw [hs]
    have hlt : positions.findIdx (fun p => decide (sp ≤ p)) < positions.length :=
      List.findIdx_lt_length.mpr hex
    constructor
    · rw [getD_eq_getElem hlt]
      have hp := @List.findIdx_getElem ℚ (fun p => decide (sp ≤ p)) positions hlt
      simpa using hp
    · intro j hj
      have hjl : j < positions.length := lt_of_lt_of_le hj (List.findIdx_le_length _)
      rw [getD_eq_getElem hjl]
      have hp := List.not_of_lt_findIdx (p := fun p => decide (sp ≤ p)) hj
      simp at hp
      exact hp
  · intro h
    rw [chartWindow_start_idx]
    rcases h with rfl | ⟨sp, rfl, hsp⟩
    · rfl
    · simp [hsp]
  · exact chartWindow_end_idx positions forces sp?
  · rw [chartWindow_end_idx]
    exact lt_of_lt_of_le (Nat.lt_succ_self _) (le_max_right _ _)
  · refine pySlice_head ?_ (chartWindow_start_idx_lt forces sp? hpos)
    rw [chartWindow_end_idx]
    exact lt_of_lt_of_le (Nat.lt_succ_self _) (le_max_right _ _)

/-- Positions for the C8 witness: maximum 10 first reached at index 2,
then a retraction. -/
def posC8 : List ℚ := [0, 5, 10, 7]

/-- Forces for the C8 witness. -/
def fC8 : List ℚ := [1, 2, 3, 1]

/-- Witness for C8 at `posC8` with startpoint 4: start index 1 (first
position at or past 4), endpoint index 2 (first occurrence of the
maximum), clip range [1, 3) containing the start sample. -/
theorem chart_window_spec_witness :
    (posC8 ≠ [] ∧ 0 < (4:ℚ) ∧ 1 < posC8.length ∧ (4:ℚ) ≤ posC8.getD 1 0) ∧
    (chartWindow posC8 fC8 (some 4)).endpoint_idx = 2 ∧
    (chartWindow posC8 fC8 (some 4)).start_idx = 1 ∧
    (chartWindow posC8 fC8 (some 4)).end_idx = 3 ∧
    (4:ℚ) ≤ posC8.getD (chartWindow posC8 fC8 (some 4)).start_idx 0 ∧
    (∀ j < (chartWindow posC8 fC8 (some 4)).start_idx, posC8.getD j 0 < 4) ∧
    (pySlice posC8 (chartWindow posC8 fC8 (some 4)).start_idx
       (chartWindow posC8 fC8 (some 4)).end_idx).head? =
      some (posC8.getD (chartWindow posC8 fC8 (some 4)).start_idx 0) := by
  obtain ⟨hA, ⟨hB1, hB2⟩, hC⟩ := chart_window_spec posC8 fC8 (some 4)
    (chartWindow posC8 fC8 (some 4)) rfl (by decide)
  have hB := hB1 4 rfl (by decide) 1 (by decide) (by decide)
  exact ⟨⟨by decide, by decide, by decide, by decide⟩,
    by decide, by decide, by decide, hB.1, hB.2, hC.2.2.2⟩

theorem definedChecks_ne_nil : ∀ (fp ep gp : Option Bool),
    ep ≠ none → definedChecks fp ep gp ≠ [] := by decide

theorem definedChecks_failed : ∀ (fp ep gp : Option Bool),
    ((definedChecks fp ep gp).filter (fun c => !c.1)).map Prod.snd =
      failedNames fp ep gp := by decide

theorem assemble_endpoint (m : Metrics) (emin emax : Option ℚ) (t : ℚ) :
    (assembleMetricsContext m emin emax (some t)).endpoint = t := rfl

theorem assemble_endpoint_pass (m : Metrics) (emin emax tel : Option ℚ) :
    (assembleMetricsContext m emin emax tel).endpoint_pass =
      critPass (assembleMetricsContext m emin emax tel).endpoint emin emax := rfl

theorem assemble_verdict_eq (m : Metrics) (emin emax tel : Option ℚ) :
    ((assembleMetricsContext m emin emax tel).overall_pass,
     (assembleMetricsContext m emin emax tel).pass_fail_reason) =
      (if critPass (assembleMetricsContext m emin emax tel).endpoint emin emax ≠ none ∧
          critPass (assembleMetricsContext m emin emax tel).endpoint emin emax ≠
            m.endpoint_pass then
         if definedChecks m.peak_force_pass
              (critPass (assembleMetricsContext m emin emax tel).endpoint emin emax)
              m.energy_pass ≠ [] then
           if failedNames m.peak_force_pass
                (critPass (assembleMetricsContext m emin emax tel).endpoint emin emax)
                m.energy_pass ≠ [] then
             (some false,
              "Failed: " ++ String.intercalate ", "
                (failedNames m.peak_force_pass
                  (critPass (assembleMetricsContext m emin emax tel).endpoint emin emax)
                  m.energy_pass))
           else (some true, "All checks passed")
         else (m.overall_pass, m.pass_fail_reason)
       else (m.overall_pass, m.pass_fail_reason)) := by
  simp only [assembleMetricsContext, definedChecks_failed]
  try split_ifs <;> rfl

/-- C6: a supplied telemetry endpoint replaces the CSV-derived endpoint
in the final context, its verdict is recomputed by the same threshold
rule, and the overall verdict and reason are re-aggregated — with the
alternate success string "All checks passed" — exactly when the
recomputed endpoint verdict differs from the pre-override one;
otherwise the metric values are kept verbatim. -/
theorem endpoint_override (d : RowState)
    (fmin fmax emin emax gmin gmax : Option ℚ) (t : ℚ) (m : Metrics)
    (hm : calculateMetrics d fmin fmax emin emax gmin gmax = some m) :
    (assembleMetricsContext m emin emax (some t)).endpoint = t ∧
    (assembleMetricsContext m emin emax (some t)).endpoint_pass = critPass t emin emax ∧
    (critPass t emin emax = m.endpoint_pass →
       (assembleMetricsContext m emin emax (some t)).overall_pass = m.overall_pass ∧
       (assembleMetricsContext m emin emax (some t)).pass_fail_reason =
         m.pass_fail_reason) ∧
    (critPass t emin emax ≠ m.endpoint_pass →
       ((assembleMetricsContext m emin emax (some t)).overall_pass,
        (assembleMetricsContext m emin emax (some t)).pass_fail_reason) =
         (if failedNames m.peak_force_pass (critPass t emin emax) m.energy_pass = []
          then (some true, "All checks passed")
          else (some false,
                "Failed: " ++ String.intercalate ", "
                  (failedNames m.peak_force_pass (critPass t emin emax)
                    m.energy_pass)))) := by
  obtain ⟨rfl, hp, hf⟩ := calculateMetrics_some hm
  have hep := core_endpoint_pass d fmin fmax emin emax gmin gmax
  have hkey := assemble_verdict_eq (calcMetricsCore d fmin fmax emin emax gmin gmax)
    emin emax (some t)
  rw [assemble_endpoint] at hkey
  refine ⟨rfl, rfl, ?_, ?_⟩
  · intro heq
    rw [if_neg (fun hc => hc.2 heq)] at hkey
    exact ⟨congrArg Prod.fst hkey, congrArg Prod.snd hkey⟩
  · intro hne
    have h0 : critPass t emin emax ≠ none := by
      intro h0
      apply hne
      obtain ⟨he1, he2⟩ := (critPass_eq_none_iff t emin emax).mp h0
      subst he1
      subst he2
      rw [hep, h0]
      rfl
    rw [if_pos ⟨h0, hne⟩, if_pos (definedChecks_ne_nil _ _ _ h0)] at hkey
    by_cases hfe : failedNames
        (calcMetricsCore d fmin fmax emin emax gmin gmax).peak_force_pass
        (critPass t emin emax)
        (calcMetricsCore d fmin fmax emin emax gmin gmax).energy_pass = []
    · rw [if_neg (by simp [hfe])] at hkey
      rw [if_pos hfe]
      exact hkey
    · rw [if_pos hfe] at hkey
      rw [if_neg hfe]
      exact hkey

/-- Concrete log for the C6 witness: CSV endpoint 60 fails
`endpoint_max=50`; the telemetry endpoint 40 passes. -/
def dC6 : RowState := ⟨[0, 1], [0, 60], [10, 10], []⟩

/-- The metrics of `dC6` under `endpoint_max=50` only. -/
def mC6 : Metrics := calcMetricsCore dC6 none none none (some 50) none none

/-- Witness for C6 at `dC6` with telemetry endpoint 40: the verdict
flips, and the recomputed overall verdict is true with the alternate
success string. -/
theorem endpoint_override_witness :
    calculateMetrics dC6 none none none (some 50) none none = some mC6 ∧
    mC6.endpoint_pass = some false ∧
    (assembleMetricsContext mC6 none (some 50) (some 40)).endpoint = 40 ∧
    critPass 40 none (some 50) ≠ mC6.endpoint_pass ∧
    ((assembleMetricsContext mC6 none (some 50) (some 40)).overall_pass,
     (assembleMetricsContext mC6 none (some 50) (some 40)).pass_fail_reason) =
      (some true, "All checks passed") := by
  have h := endpoint_override dC6 none none none (some 50) none none 40 mC6 rfl
  have h4 := h.2.2.2 (by decide)
  rw [if_pos (by decide)] at h4
  exact ⟨rfl, by decide, h.1, by decide, h4⟩

/-- C10: with no telemetry endpoint supplied, the override path is a
no-op — every metric-derived field of the final context equals the
corresponding field of the calculated metrics. -/
theorem no_override_identity (d : RowState)
    (fmin fmax emin emax gmin gmax : Option ℚ) (m : Metrics)
    (hm : calculateMetrics d fmin fmax emin emax gmin gmax = some m) :
    assembleMetricsContext m emin emax none =
      ⟨m.peak_force, m.peak_force_pass, m.start_position, m.endpoint, m.endpoint_pass,
       m.energy, m.energy_pass, m.energy_percent, m.energy_min_percent,
       m.energy_max_percent, m.overall_pass, m.pass_fail_reason, m.data_points⟩ := by
  obtain ⟨rfl, hp, hf⟩ := calculateMetrics_some hm
  have hep := core_endpoint_pass d fmin fmax emin emax gmin gmax
  simp only [assembleMetricsContext]
  rw [← hep]
  rw [if_neg (fun hc => hc.2 rfl)]

/-- Concrete log for the C10 witness. -/
def dC10 : RowState := ⟨[0, 1], [0, 10], [5, 6], []⟩

/-- The metrics of `dC10` under `endpoint_max=50` only. -/
def mC10 : Metrics := calcMetricsCore dC10 none none none (some 50) none none

/-- Witness for C10 at `dC10`: the assembled context with no telemetry
endpoint is exactly the metric values. -/
theorem no_override_identity_witness :
    calculateMetrics dC10 none none none (some 50) none none = some mC10 ∧
    assembleMetricsContext mC10 none (some 50) none =
      ⟨mC10.peak_force, mC10.peak_force_pass, mC10.start_position, mC10.endpoint,
       mC10.endpoint_pass, mC10.energy, mC10.energy_pass, mC10.energy_percent,
       mC10.energy_min_percent, mC10.energy_max_percent, mC10.overall_pass,
       mC10.pass_fail_reason, mC10.data_points⟩ :=
  ⟨rfl, no_override_identity dC10 none none none (some 50) none none mC10 rfl⟩

end PressReport
